import Mathlib

/-!
Verification of the `gen` command of the `vibe` CLI (src/cmd/gen.go).

The command reads a prompt file, fans out one HTTP call per configured
provider (OpenAI, Gemini via OpenRouter, Claude), drains the three results
from a completion channel, and finally merges the successful responses with
one more OpenAI chat-completion call.

The embedding is shallow: each goroutine body becomes a total Lean function
from the environment and an oracle describing the external world (marshal,
request construction, network send, body read, JSON unmarshal outcomes) to
the single result it writes to the channel, paired with the number of
network calls (`client.Do` invocations) it performed.  The nondeterministic
arrival order on the channel is modelled by quantifying over permutations of
the three dispatched results.
-/

namespace Vibe

/-- Environment variables read by the command (`os.Getenv`); an unset Go
environment variable reads as the empty string. -/
structure Env where
  openaiKey : String
  openrouterKey : String
  anthropicKey : String
deriving DecidableEq, Repr

/-- The outcome field pair `(resp, err)` of the anonymous result struct sent
on the `results` channel: every send site sets either `err` (failure) or
`resp` (success). -/
inductive Outcome where
  | success (resp : String)
  | failure (msg : String)
deriving DecidableEq, Repr

/-- One element of the `results` channel in gen.go: `{model, resp, err}`. -/
structure ProviderResult where
  model : String
  outcome : Outcome
deriving DecidableEq, Repr

/-- Outcome of `json.Unmarshal` on a 200 body: either an error or a value of
the provider-specific response struct. -/
inductive ParseOutcome (β : Type) where
  | unmarshalError (msg : String)
  | parsed (v : β)
deriving DecidableEq, Repr

/-- Oracle describing what the external world does for one provider call,
one constructor per failure point of the goroutine body.  A 200/non-200
response carries the raw body string together with what `json.Unmarshal`
would produce on it (consulted only on status 200, as in the source). -/
inductive CallOutcome (β : Type) where
  | marshalError (msg : String)
  | newRequestError (msg : String)
  | sendError (msg : String)
  | readError (msg : String)
  | httpResponse (status : Nat) (body : String) (parse : ParseOutcome β)
deriving DecidableEq, Repr

/-- Structured API error object (`error` field) of the OpenAI response. -/
structure APIErrorS where
  message : String
  code : String
deriving DecidableEq, Repr

/-- One element of the OpenAI `output[i].content` array. -/
structure OAContent where
  text : String
deriving DecidableEq, Repr

/-- One element of the OpenAI `output` array. -/
structure OAOutput where
  content : List OAContent
deriving DecidableEq, Repr

/-- The parsed OpenAI `/v1/responses` body struct of gen.go. -/
structure OpenAIBody where
  output : List OAOutput
  error : Option APIErrorS
deriving DecidableEq, Repr

/-- Structured API error object of the OpenRouter response (`code` is int64). -/
structure APIErrorI where
  message : String
  code : Int
deriving DecidableEq, Repr

/-- One element of the OpenRouter `choices` array: `message.content`. -/
structure ORChoice where
  content : String
deriving DecidableEq, Repr

/-- The parsed OpenRouter chat-completions body struct of gen.go. -/
structure GeminiBody where
  choices : List ORChoice
  error : Option APIErrorI
deriving DecidableEq, Repr

/-- One element of the Anthropic `content` array. -/
structure ClContent where
  text : String
deriving DecidableEq, Repr

/-- The parsed Anthropic messages body struct of gen.go (no error field). -/
structure ClaudeBody where
  content : List ClContent
deriving DecidableEq, Repr

/-- The OpenAI goroutine body (gen.go lines 41-169): returns the single
result it sends on the channel and the number of `client.Do` network calls
it made (0 when it short-circuits before the send, 1 otherwise). -/
def openAICall (env : Env) (o : CallOutcome OpenAIBody) : ProviderResult × Nat :=
  if env.openaiKey = "" then
    (⟨"OpenAI", .failure "OPENAI_API_KEY environment variable not set"⟩, 0)
  else
    match o with
    | .marshalError m =>
        (⟨"OpenAI", .failure ("failed to marshal request body: " ++ m)⟩, 0)
    | .newRequestError m =>
        (⟨"OpenAI", .failure ("failed to create request: " ++ m)⟩, 0)
    | .sendError m =>
        (⟨"OpenAI", .failure ("failed to send request: " ++ m)⟩, 1)
    | .readError m =>
        (⟨"OpenAI", .failure ("failed to read response body: " ++ m)⟩, 1)
    | .httpResponse status body parse =>
        if status ≠ 200 then
          (⟨"OpenAI", .failure
            ("API request failed with status " ++ toString status ++ ": " ++ body)⟩, 1)
        else
          match parse with
          | .unmarshalError m =>
              (⟨"OpenAI", .failure ("failed to unmarshal response body: " ++ m)⟩, 1)
          | .parsed rb =>
              match rb.error with
              | some e =>
                  (⟨"OpenAI", .failure
                    ("OpenAI API error (" ++ e.code ++ "): " ++ e.message)⟩, 1)
              | none =>
                  match rb.output with
                  | o0 :: _ =>
                      match o0.content with
                      | c0 :: _ => (⟨"OpenAI", .success c0.text⟩, 1)
                      | [] =>
                          (⟨"OpenAI", .failure "no content found in response structure"⟩, 1)
                  | [] =>
                      (⟨"OpenAI", .failure "no content found in response structure"⟩, 1)

/-- The Gemini-via-OpenRouter goroutine body (gen.go lines 174-306). -/
def geminiCall (env : Env) (o : CallOutcome GeminiBody) : ProviderResult × Nat :=
  if env.openrouterKey = "" then
    (⟨"Gemini (OpenRouter)", .failure "OPENROUTER_API_KEY environment variable not set"⟩, 0)
  else
    match o with
    | .marshalError m =>
        (⟨"Gemini (OpenRouter)", .failure ("failed to marshal request body: " ++ m)⟩, 0)
    | .newRequestError m =>
        (⟨"Gemini (OpenRouter)", .failure ("failed to create request: " ++ m)⟩, 0)
    | .sendError m =>
        (⟨"Gemini (OpenRouter)", .failure ("failed to send request: " ++ m)⟩, 1)
    | .readError m =>
        (⟨"Gemini (OpenRouter)", .failure ("failed to read response body: " ++ m)⟩, 1)
    | .httpResponse status body parse =>
        if status ≠ 200 then
          (⟨"Gemini (OpenRouter)", .failure
            ("API request failed with status " ++ toString status ++ ": " ++ body)⟩, 1)
        else
          match parse with
          | .unmarshalError m =>
              (⟨"Gemini (OpenRouter)", .failure
                ("failed to unmarshal response body: " ++ m)⟩, 1)
          | .parsed rb =>
              match rb.error with
              | some e =>
                  (⟨"Gemini (OpenRouter)", .failure
                    ("OpenRouter API error (" ++ toString e.code ++ "): " ++ e.message)⟩, 1)
              | none =>
                  match rb.choices with
                  | [] =>
                      (⟨"Gemini (OpenRouter)", .failure "no content found in response"⟩, 1)
                  | c0 :: _ =>
                      if c0.content = "" then
                        (⟨"Gemini (OpenRouter)", .failure "no content found in response"⟩, 1)
                      else
                        (⟨"Gemini (OpenRouter)", .success c0.content⟩, 1)

/-- The Claude goroutine body (gen.go lines 310-418). -/
def claudeCall (env : Env) (o : CallOutcome ClaudeBody) : ProviderResult × Nat :=
  if env.anthropicKey = "" then
    (⟨"Claude", .failure "ANTHROPIC_API_KEY environment variable not set"⟩, 0)
  else
    match o with
    | .marshalError m =>
        (⟨"Claude", .failure ("failed to marshal request body: " ++ m)⟩, 0)
    | .newRequestError m =>
        (⟨"Claude", .failure ("failed to create request: " ++ m)⟩, 0)
    | .sendError m =>
        (⟨"Claude", .failure ("failed to send request: " ++ m)⟩, 1)
    | .readError m =>
        (⟨"Claude", .failure ("failed to read response body: " ++ m)⟩, 1)
    | .httpResponse status body parse =>
        if status ≠ 200 then
          (⟨"Claude", .failure
            ("API request failed with status " ++ toString status ++ ": " ++ body)⟩, 1)
        else
          match parse with
          | .unmarshalError m =>
              (⟨"Claude", .failure ("failed to unmarshal response body: " ++ m)⟩, 1)
          | .parsed rb =>
              match rb.content with
              | [] => (⟨"Claude", .failure "no content found in response"⟩, 1)
              | c0 :: _ => (⟨"Claude", .success c0.text⟩, 1)

/-- The three results written to the `results` channel, in dispatch order;
the channel delivers them to the consumer in some permutation of this list. -/
def dispatched (env : Env) (oA : CallOutcome OpenAIBody)
    (oB : CallOutcome GeminiBody) (oC : CallOutcome ClaudeBody) :
    List ProviderResult :=
  [(openAICall env oA).1, (geminiCall env oB).1, (claudeCall env oC).1]

/-- A successful response kept in the consumer's `successfulResponses` list:
the `{model, resp}` pair appended in the drain loop. -/
structure SuccessResp where
  model : String
  resp : String
deriving DecidableEq, Repr

/-- The fixed instruction preamble of the merge prompt (gen.go lines 485-487). -/
def mergePreamble : String :=
  "Below are responses from different AI models to the same prompt. Please analyze these responses and provide either:\n" ++
  "1. The best single response if one clearly stands out, or\n" ++
  "2. A merged response that combines the unique insights and important points from all responses.\n\n"

/-- One formatted response block of the merge prompt:
`fmt.Sprintf("=== %s Response ===\n%s\n\n", resp.model, resp.resp)`. -/
def mergeBlock (r : SuccessResp) : String :=
  "=== " ++ r.model ++ " Response ===\n" ++ r.resp ++ "\n\n"

/-- The merge prompt built by the for-loop of `mergeResponses` (gen.go
lines 485-491): start from the preamble and append one block per response. -/
def mergePrompt (responses : List SuccessResp) : String :=
  responses.foldl (fun acc r => acc ++ mergeBlock r) mergePreamble

/-- Outcome of the `client.CreateChatCompletion` call inside
`mergeResponses`: either an error, or a response carrying the list of choice
message contents. -/
inductive ChatOutcome where
  | callError (msg : String)
  | response (choices : List String)
deriving DecidableEq, Repr

/-- Result of `mergeResponses`: the Go function returns `(string, error)`,
but `resp.Choices[0]` is indexed without a bounds check, so a successful
call with zero choices panics; `panics` marks that out-of-bounds access. -/
inductive MergeResult where
  | ok (s : String)
  | err (msg : String)
  | panics
deriving DecidableEq, Repr

/-- `mergeResponses` (gen.go lines 481-504): build the merge prompt, issue
one chat-completion call, and return `resp.Choices[0].Message.Content`. -/
def mergeResponses (responses : List SuccessResp) (o : ChatOutcome) : MergeResult :=
  let _prompt := mergePrompt responses
  match o with
  | .callError m => .err ("failed to merge responses: " ++ m)
  | .response choices =>
      match choices with
      | [] => .panics
      | c :: _ => .ok c

/-- One observable output event of the gen command's consumer phase, in
print order: a provider error line, a provider response block, the merge
header, the merge error line, the merged block, the no-successes line, or
the out-of-bounds panic inside `mergeResponses`. -/
inductive OutEvent where
  | provErr (model : String) (msg : String)
  | provResp (model : String) (resp : String)
  | mergeHeader
  | mergeErr (msg : String)
  | mergedResp (s : String)
  | noSuccesses
  | panicEvent
deriving DecidableEq, Repr

/-- The event the drain loop prints for one drained result: an error line
`"%s error: %v"` on failure, otherwise the (raw or rendered) response block. -/
def eventOf (r : ProviderResult) : OutEvent :=
  match r.outcome with
  | .failure m => .provErr r.model m
  | .success s => .provResp r.model s

/-- The `{model, resp}` entry the drain loop appends to
`successfulResponses` for one drained result, when it succeeded. -/
def successOf (r : ProviderResult) : Option SuccessResp :=
  match r.outcome with
  | .success s => some ⟨r.model, s⟩
  | .failure _ => none

/-- The `successfulResponses` list after the drain loop: the successes of
the drained results, in arrival order. -/
def successes (rs : List ProviderResult) : List SuccessResp :=
  rs.filterMap successOf

/-- Observable outcome of one `gen` invocation: the error returned by
`RunE` (fatal, non-zero exit when `some`), the printed events in order, and
the merge prompt constructed and sent (if the merge step ran at all). -/
structure GenOutcome where
  fatal : Option String
  events : List OutEvent
  mergeRequest : Option String
deriving DecidableEq, Repr

/-- The merge phase of the gen command (gen.go lines 454-475), run after the
drain loop over the final `successfulResponses` list. -/
def mergePhase (succ : List SuccessResp) (mergeO : ChatOutcome) :
    List OutEvent × Option String :=
  if succ.isEmpty then
    ([.noSuccesses], none)
  else
    (OutEvent.mergeHeader ::
      (match mergeResponses succ mergeO with
       | .err m => [.mergeErr m]
       | .ok s => [.mergedResp s]
       | .panics => [.panicEvent]),
     some (mergePrompt succ))

/-- The `RunE` body of the gen command (gen.go lines 25-478).  `readResult`
is the outcome of `os.ReadFile` on the prompt file; `rs` is the sequence in
which the consumer drains the `results` channel (a permutation of
`dispatched` — dispatch is left to the theorems' hypotheses); `mergeO` is
the outcome of the merge chat-completion call. -/
def genCmd (readResult : Except String String)
    (rs : List ProviderResult) (mergeO : ChatOutcome) : GenOutcome :=
  match readResult with
  | .error e => ⟨some ("failed to read prompt file: " ++ e), [], none⟩
  | .ok _prompt =>
      let succ := successes rs
      let mp := mergePhase succ mergeO
      ⟨none, rs.map eventOf ++ mp.1, mp.2⟩

/-- The error lines the drain loop prints: `(model, message)` of each
drained failure, in arrival order. -/
def failures (rs : List ProviderResult) : List (String × String) :=
  rs.filterMap fun r =>
    match r.outcome with
    | .failure m => some (r.model, m)
    | .success _ => none

/-- `needle` occurs somewhere inside `hay`. -/
def containsStr (needle hay : String) : Prop :=
  ∃ pre post, hay = pre ++ needle ++ post

/-- An output event that is not one of the per-provider drain-loop prints. -/
def notProviderEvent (e : OutEvent) : Prop :=
  (∀ model msg, e ≠ .provErr model msg) ∧ ∀ model resp, e ≠ .provResp model resp

theorem length_successes_add_failures (rs : List ProviderResult) :
    (successes rs).length + (failures rs).length = rs.length := by
  induction rs with
  | nil => rfl
  | cons r rest ih =>
      obtain ⟨model, outcome⟩ := r
      cases outcome with
      | success s =>
          simp [successes, failures, List.filterMap_cons, successOf] at ih ⊢
          omega
      | failure m =>
          simp [successes, failures, List.filterMap_cons, successOf] at ih ⊢
          omega

theorem string_join_cons (s : String) (l : List String) :
    String.join (s :: l) = s ++ String.join l := by
  simp [String.join_eq, String.ext_iff]

theorem foldl_append_mergeBlock (l : List SuccessResp) (acc : String) :
    l.foldl (fun a r => a ++ mergeBlock r) acc = acc ++ String.join (l.map mergeBlock) := by
  induction l generalizing acc with
  | nil => simp [String.join]
  | cons r rest ih =>
      simp only [List.foldl_cons, List.map_cons, string_join_cons, ih,
        String.append_assoc]

theorem mergePrompt_eq_join (l : List SuccessResp) :
    mergePrompt l = mergePreamble ++ String.join (l.map mergeBlock) :=
  foldl_append_mergeBlock l mergePreamble

/-- C1: for every environment and every per-provider path through the
goroutine bodies (missing key, marshal error, request-construction error,
network error, body-read error, non-OK status, unmarshal error, structured
API error, empty content, success — all the constructors of `CallOutcome`
and branches of the call functions), any arrival-order permutation of the
dispatched results delivers exactly 3 `ProviderResult`s to the consumer, and
the successes and failures it drains sum to 3. -/
theorem gen_exactly_one_result_per_provider
    (env : Env) (oA : CallOutcome OpenAIBody) (oB : CallOutcome GeminiBody)
    (oC : CallOutcome ClaudeBody) (rs : List ProviderResult)
    (hperm : rs.Perm (dispatched env oA oB oC)) :
    rs.length = 3 ∧ (successes rs).length + (failures rs).length = 3 := by
  have hlen : rs.length = 3 := by
    rw [hperm.length_eq]; rfl
  exact ⟨hlen, by rw [length_successes_add_failures, hlen]⟩

/-- C1 witness: a concrete run (all three keys present, OpenAI succeeds,
Gemini hits a 500, Claude hits a network error) drained in a non-dispatch
order still yields 3 results, 1 success and 2 failures. -/
theorem gen_exactly_one_result_per_provider_witness :
    ([(Vibe.geminiCall ⟨"k1", "k2", "k3"⟩ (.httpResponse 500 "oops" (.unmarshalError "x"))).1,
      (Vibe.claudeCall ⟨"k1", "k2", "k3"⟩ (.sendError "conn refused")).1,
      (Vibe.openAICall ⟨"k1", "k2", "k3"⟩
        (.httpResponse 200 "b" (.parsed ⟨[⟨[⟨"hello"⟩]⟩], none⟩))).1] :
        List ProviderResult).length = 3 ∧
    (successes [(Vibe.geminiCall ⟨"k1", "k2", "k3"⟩ (.httpResponse 500 "oops" (.unmarshalError "x"))).1,
      (Vibe.claudeCall ⟨"k1", "k2", "k3"⟩ (.sendError "conn refused")).1,
      (Vibe.openAICall ⟨"k1", "k2", "k3"⟩
        (.httpResponse 200 "b" (.parsed ⟨[⟨[⟨"hello"⟩]⟩], none⟩))).1]).length +
    (failures [(Vibe.geminiCall ⟨"k1", "k2", "k3"⟩ (.httpResponse 500 "oops" (.unmarshalError "x"))).1,
      (Vibe.claudeCall ⟨"k1", "k2", "k3"⟩ (.sendError "conn refused")).1,
      (Vibe.openAICall ⟨"k1", "k2", "k3"⟩
        (.httpResponse 200 "b" (.parsed ⟨[⟨[⟨"hello"⟩]⟩], none⟩))).1]).length = 3 :=
  gen_exactly_one_result_per_provider ⟨"k1", "k2", "k3"⟩
    (.httpResponse 200 "b" (.parsed ⟨[⟨[⟨"hello"⟩]⟩], none⟩))
    (.httpResponse 500 "oops" (.unmarshalError "x"))
    (.sendError "conn refused") _ (by decide)

/-- C2: for each provider, if its API-key environment variable is unset or
empty (empty string from `os.Getenv`), its result is exactly the
missing-credential failure and the goroutine performs zero network calls
(`client.Do` is never reached), whatever the external world would have done. -/
theorem missing_key_short_circuits
    (env : Env) (oA : CallOutcome OpenAIBody) (oB : CallOutcome GeminiBody)
    (oC : CallOutcome ClaudeBody) :
    (env.openaiKey = "" →
      openAICall env oA =
        (⟨"OpenAI", .failure "OPENAI_API_KEY environment variable not set"⟩, 0)) ∧
    (env.openrouterKey = "" →
      geminiCall env oB =
        (⟨"Gemini (OpenRouter)",
          .failure "OPENROUTER_API_KEY environment variable not set"⟩, 0)) ∧
    (env.anthropicKey = "" →
      claudeCall env oC =
        (⟨"Claude", .failure "ANTHROPIC_API_KEY environment variable not set"⟩, 0)) := by
  refine ⟨fun h => ?_, fun h => ?_, fun h => ?_⟩
  · simp [openAICall, h]
  · simp [geminiCall, h]
  · simp [claudeCall, h]

/-- C2 witness: with every key empty, all three calls short-circuit to
their missing-credential failures with zero network calls, even when the
world would have answered a 200 with content. -/
theorem missing_key_short_circuits_witness :
    openAICall ⟨"", "", ""⟩ (.httpResponse 200 "b" (.parsed ⟨[⟨[⟨"t"⟩]⟩], none⟩)) =
      (⟨"OpenAI", .failure "OPENAI_API_KEY environment variable not set"⟩, 0) ∧
    geminiCall ⟨"", "", ""⟩ (.httpResponse 200 "b" (.parsed ⟨[⟨"t"⟩], none⟩)) =
      (⟨"Gemini (OpenRouter)",
        .failure "OPENROUTER_API_KEY environment variable not set"⟩, 0) ∧
    claudeCall ⟨"", "", ""⟩ (.httpResponse 200 "b" (.parsed ⟨[⟨"t"⟩]⟩)) =
      (⟨"Claude", .failure "ANTHROPIC_API_KEY environment variable not set"⟩, 0) := by
  have h := missing_key_short_circuits ⟨"", "", ""⟩
    (.httpResponse 200 "b" (.parsed ⟨[⟨[⟨"t"⟩]⟩], none⟩))
    (.httpResponse 200 "b" (.parsed ⟨[⟨"t"⟩], none⟩))
    (.httpResponse 200 "b" (.parsed ⟨[⟨"t"⟩]⟩))
  exact ⟨h.1 rfl, h.2.1 rfl, h.2.2 rfl⟩

/-- C5: for each provider, a response with status ≠ 200 yields a failure
whose message contains the decimal status code and the raw response body
(the code interpolates both into
`"API request failed with status %d: %s"`, so the raw-body fallback — which
itself carries any structured error text the body may hold — is always
present). -/
theorem non_ok_status_reports_code_and_body
    (env : Env) (status : Nat)
    (bodyA bodyB bodyC : String) (pA : ParseOutcome OpenAIBody)
    (pB : ParseOutcome GeminiBody) (pC : ParseOutcome ClaudeBody)
    (hA : env.openaiKey ≠ "") (hB : env.openrouterKey ≠ "")
    (hC : env.anthropicKey ≠ "") (hs : status ≠ 200) :
    (∃ m, (openAICall env (.httpResponse status bodyA pA)).1.outcome = .failure m ∧
      containsStr (toString status) m ∧ containsStr bodyA m) ∧
    (∃ m, (geminiCall env (.httpResponse status bodyB pB)).1.outcome = .failure m ∧
      containsStr (toString status) m ∧ containsStr bodyB m) ∧
    (∃ m, (claudeCall env (.httpResponse status bodyC pC)).1.outcome = .failure m ∧
      containsStr (toString status) m ∧ containsStr bodyC m) := by
  refine ⟨⟨"API request failed with status " ++ toString status ++ ": " ++ bodyA, ?_, ?_, ?_⟩,
    ⟨"API request failed with status " ++ toString status ++ ": " ++ bodyB, ?_, ?_, ?_⟩,
    ⟨"API request failed with status " ++ toString status ++ ": " ++ bodyC, ?_, ?_, ?_⟩⟩
  · simp [openAICall, hA, hs]
  · exact ⟨"API request failed with status ", ": " ++ bodyA, by simp [String.append_assoc]⟩
  · exact ⟨"API request failed with status " ++ toString status ++ ": ", "", by
      simp [String.append_assoc, String.append_empty]⟩
  · simp [geminiCall, hB, hs]
  · exact ⟨"API request failed with status ", ": " ++ bodyB, by simp [String.append_assoc]⟩
  · exact ⟨"API request failed with status " ++ toString status ++ ": ", "", by
      simp [String.append_assoc, String.append_empty]⟩
  · simp [claudeCall, hC, hs]
  · exact ⟨"API request failed with status ", ": " ++ bodyC, by simp [String.append_assoc]⟩
  · exact ⟨"API request failed with status " ++ toString status ++ ": ", "", by
      simp [String.append_assoc, String.append_empty]⟩

/-- C5 witness: at status 404 with concrete bodies, all three failure
messages contain "404" and the raw body. -/
theorem non_ok_status_reports_code_and_body_witness :
    (∃ m, (openAICall ⟨"k", "k", "k"⟩
        (.httpResponse 404 "not found A" (.unmarshalError "u"))).1.outcome = .failure m ∧
      containsStr (toString 404) m ∧ containsStr "not found A" m) ∧
    (∃ m, (geminiCall ⟨"k", "k", "k"⟩
        (.httpResponse 404 "not found B" (.unmarshalError "u"))).1.outcome = .failure m ∧
      containsStr (toString 404) m ∧ containsStr "not found B" m) ∧
    (∃ m, (claudeCall ⟨"k", "k", "k"⟩
        (.httpResponse 404 "not found C" (.unmarshalError "u"))).1.outcome = .failure m ∧
      containsStr (toString 404) m ∧ containsStr "not found C" m) :=
  non_ok_status_reports_code_and_body ⟨"k", "k", "k"⟩ 404
    "not found A" "not found B" "not found C"
    (.unmarshalError "u") (.unmarshalError "u") (.unmarshalError "u")
    (by decide) (by decide) (by decide) (by decide)

/-- C10: `mergeResponses` reads `Choices[0]` with no emptiness check, so a
merge call that returns without error but with zero choices hits an
out-of-bounds index (a panic in the Go source), for every responses list. -/
theorem mergeResponses_empty_choices_panics (responses : List SuccessResp) :
    mergeResponses responses (.response []) = .panics := rfl

/-- C6 counterexample: a 200 OpenAI response that parses into the schema
with a non-empty output/content array whose text field is the empty string
is returned as a success carrying the empty response text — not a
"no content" error — because the code only checks the array lengths, never
the string. -/
theorem empty_content_string_is_success :
    (openAICall ⟨"k", "k", "k"⟩
      (.httpResponse 200 "\x7b\x22output\x22:[\x7b\x22content\x22:[\x7b\x22text\x22:\x22\x22\x7d]\x7d]\x7d"
        (.parsed ⟨[⟨[⟨""⟩]⟩], none⟩))).1
      = ⟨"OpenAI", .success ""⟩ := rfl

/-- C6 amended: on a 200 response that parses into the provider's schema
(and carries no structured API error), an absent or empty content ARRAY
(OpenAI: empty `output` or empty `output[0].content`; Gemini: empty
`choices`; Claude: empty `content`) yields the "no content" failure, and
Gemini additionally treats an empty content STRING in the first choice as
"no content"; OpenAI and Claude do not check the string and return an
empty-text success in that case. -/
theorem empty_content_array_is_no_content_error
    (env : Env) (body : String)
    (rbA : OpenAIBody) (rbB : GeminiBody) (rbC : ClaudeBody)
    (hA : env.openaiKey ≠ "") (hB : env.openrouterKey ≠ "")
    (hC : env.anthropicKey ≠ "")
    (heA : rbA.error = none) (heB : rbB.error = none) :
    ((rbA.output = [] ∨ ∃ o0 rest, rbA.output = o0 :: rest ∧ o0.content = []) →
      (openAICall env (.httpResponse 200 body (.parsed rbA))).1 =
        ⟨"OpenAI", .failure "no content found in response structure"⟩) ∧
    ((rbB.choices = [] ∨ ∃ c0 rest, rbB.choices = c0 :: rest ∧ c0.content = "") →
      (geminiCall env (.httpResponse 200 body (.parsed rbB))).1 =
        ⟨"Gemini (OpenRouter)", .failure "no content found in response"⟩) ∧
    (rbC.content = [] →
      (claudeCall env (.httpResponse 200 body (.parsed rbC))).1 =
        ⟨"Claude", .failure "no content found in response"⟩) := by
  refine ⟨fun h => ?_, fun h => ?_, fun h => ?_⟩
  · rcases h with h | ⟨o0, rest, h, hc⟩
    · simp [openAICall, hA, heA, h]
    · simp [openAICall, hA, heA, h, hc]
  · rcases h with h | ⟨c0, rest, h, hc⟩
    · simp [geminiCall, hB, heB, h]
    · simp [geminiCall, hB, heB, h, hc]
  · simp [claudeCall, hC, h]

/-- C6 amended witness: concrete empty-array bodies produce the three
"no content" failures. -/
theorem empty_content_array_is_no_content_error_witness :
    ((openAICall ⟨"k", "k", "k"⟩ (.httpResponse 200 "b" (.parsed ⟨[⟨[]⟩], none⟩))).1 =
      ⟨"OpenAI", .failure "no content found in response structure"⟩) ∧
    ((geminiCall ⟨"k", "k", "k"⟩ (.httpResponse 200 "b" (.parsed ⟨[⟨""⟩], none⟩))).1 =
      ⟨"Gemini (OpenRouter)", .failure "no content found in response"⟩) ∧
    ((claudeCall ⟨"k", "k", "k"⟩ (.httpResponse 200 "b" (.parsed ⟨[]⟩))).1 =
      ⟨"Claude", .failure "no content found in response"⟩) := by
  have h := empty_content_array_is_no_content_error ⟨"k", "k", "k"⟩ "b"
    ⟨[⟨[]⟩], none⟩ ⟨[⟨""⟩], none⟩ ⟨[]⟩
    (by decide) (by decide) (by decide) rfl rfl
  exact ⟨h.1 (Or.inr ⟨⟨[]⟩, [], rfl, rfl⟩), h.2.1 (Or.inr ⟨⟨""⟩, [], rfl, rfl⟩),
    h.2.2 rfl⟩

theorem mergePhase_no_provider_events (succ : List SuccessResp) (mo : ChatOutcome) :
    ∀ e ∈ (mergePhase succ mo).1, notProviderEvent e := by
  intro e he
  have hnp : ∀ x : OutEvent, x = .mergeHeader ∨ x = .noSuccesses ∨ x = .panicEvent ∨
      (∃ m, x = .mergeErr m) ∨ (∃ s, x = .mergedResp s) → notProviderEvent x := by
    rintro x (rfl | rfl | rfl | ⟨m, rfl⟩ | ⟨s, rfl⟩) <;> simp [notProviderEvent]
  apply hnp
  cases succ with
  | nil =>
      simp [mergePhase] at he
      simp [he]
  | cons a l =>
      cases mo with
      | callError m =>
          simp [mergePhase, mergeResponses] at he
          rcases he with rfl | rfl
          · simp
          · simp
      | response choices =>
          cases choices with
          | nil =>
              simp [mergePhase, mergeResponses] at he
              rcases he with rfl | rfl
              · simp
              · simp
          | cons c cs =>
              simp [mergePhase, mergeResponses] at he
              rcases he with rfl | rfl
              · simp
              · simp

/-- C3: when no provider succeeded, the merge step is never invoked — no
merge request is constructed or sent (`mergeRequest = none`) — and the run
prints exactly the drained error lines followed by the no-successes
message. -/
theorem no_success_skips_merge (rs : List ProviderResult) (mergeO : ChatOutcome)
    (p : String) (h : successes rs = []) :
    genCmd (.ok p) rs mergeO =
      ⟨none, rs.map eventOf ++ [.noSuccesses], none⟩ := by
  simp [genCmd, mergePhase, h]

/-- C3 witness: all three keys unset, all three calls fail locally, and the
run with the dispatched arrival order skips the merge and prints the
no-successes line. -/
theorem no_success_skips_merge_witness :
    genCmd (.ok "prompt")
        (dispatched ⟨"", "", ""⟩ (.sendError "a") (.sendError "b") (.sendError "c"))
        (.response ["r"]) =
      ⟨none,
        (dispatched ⟨"", "", ""⟩ (.sendError "a") (.sendError "b") (.sendError "c")).map
          eventOf ++ [.noSuccesses], none⟩ :=
  no_success_skips_merge _ _ _ (by decide)

/-- C4: whenever the successes list is non-empty, the merge request's prompt
is exactly the fixed instruction preamble followed by one named response
block per drained success, concatenated in arrival (drain) order — each
success contributing its provider's name and response text exactly once. -/
theorem merge_prompt_structure (rs : List ProviderResult) (mergeO : ChatOutcome)
    (p : String) (h : successes rs ≠ []) :
    (genCmd (.ok p) rs mergeO).mergeRequest =
      some (mergePreamble ++ String.join ((rs.filterMap successOf).map mergeBlock)) := by
  have hne : rs.filterMap successOf ≠ [] := h
  simp only [genCmd, mergePhase, successes, List.isEmpty_iff, if_neg hne]
  rw [mergePrompt_eq_join]

/-- C4 witness: two successes drained with a failure between them produce
the preamble followed by the two blocks in drain order. -/
theorem merge_prompt_structure_witness :
    (genCmd (.ok "prompt")
        [⟨"Claude", .success "second"⟩, ⟨"OpenAI", .failure "boom"⟩,
         ⟨"Gemini (OpenRouter)", .success "first"⟩] (.response ["r"])).mergeRequest =
      some (mergePreamble ++ String.join
        ([SuccessResp.mk "Claude" "second",
          SuccessResp.mk "Gemini (OpenRouter)" "first"].map mergeBlock)) :=
  merge_prompt_structure
    [⟨"Claude", .success "second"⟩, ⟨"OpenAI", .failure "boom"⟩,
     ⟨"Gemini (OpenRouter)", .success "first"⟩] (.response ["r"]) "prompt" (by decide)

/-- C7 counterexample: a run whose prompt read succeeds, with one provider
success, whose merge call returns without error but with zero choices, does
not return success — it reaches the unguarded `resp.Choices[0]` access in
`mergeResponses` (a panic aborting the process with a non-zero exit in the
Go source), so "in every other case the command returns success (exit
status 0)" is false at this concrete input. -/
theorem gen_zero_choice_merge_aborts :
    mergeResponses (successes [⟨"OpenAI", .success "hi"⟩]) (.response []) =
      .panics ∧
    (genCmd (.ok "p") [⟨"OpenAI", .success "hi"⟩] (.response [])).events =
      [.provResp "OpenAI" "hi", .mergeHeader, .panicEvent] :=
  ⟨rfl, rfl⟩

/-- C7 amended: for every run that does not hit the out-of-bounds
`Choices[0]` access of the merge step (no panic event), the gen command's
`RunE` returns an error exactly when reading the prompt file failed (and
that error wraps the read error); in every other such world — any provider
failures, a failing merge call included — it returns nil, so the process
exits 0. -/
theorem gen_fatal_iff_prompt_read_fails_unless_merge_panics
    (readResult : Except String String)
    (rs : List ProviderResult) (mergeO : ChatOutcome)
    (_hnp : OutEvent.panicEvent ∉ (genCmd readResult rs mergeO).events) :
    ((genCmd readResult rs mergeO).fatal.isSome ↔ ∃ e, readResult = .error e) ∧
    (∀ e, readResult = .error e →
      (genCmd readResult rs mergeO).fatal =
        some ("failed to read prompt file: " ++ e)) := by
  cases readResult with
  | error e => exact ⟨by simp [genCmd], by simp [genCmd]⟩
  | ok p => exact ⟨by simp [genCmd], by simp⟩

/-- C7 amended witness: a concrete failed read is fatal with the wrapped
message, while a concrete panic-free run whose provider and merge call both
fail still returns nil. -/
theorem gen_fatal_iff_prompt_read_fails_unless_merge_panics_witness :
    (genCmd (Except.error "nope") [] (.response ["r"])).fatal =
      some ("failed to read prompt file: " ++ "nope") ∧
    (genCmd (.ok "p") [⟨"OpenAI", .failure "boom"⟩] (.callError "bad")).fatal = none :=
  ⟨(gen_fatal_iff_prompt_read_fails_unless_merge_panics (Except.error "nope") []
      (.response ["r"]) (by decide)).2 "nope" rfl,
   by
    have h := (gen_fatal_iff_prompt_read_fails_unless_merge_panics (.ok "p")
      [⟨"OpenAI", .failure "boom"⟩] (.callError "bad") (by decide)).1
    cases hf : (genCmd (.ok "p") [⟨"OpenAI", .failure "boom"⟩] (.callError "bad")).fatal with
    | none => rfl
    | some v =>
        rcases h.mp (by simp [hf]) with ⟨e, he⟩
        cases he⟩

/-- C8: with any arrival-order permutation of the dispatched results, the
printed event sequence starts with exactly the 3 drained per-provider events
(the consumer loop terminates after draining all of them) and everything
printed after that — the whole merge phase — contains no per-provider event:
the merge runs strictly after the full drain. -/
theorem merge_strictly_after_full_drain
    (env : Env) (oA : CallOutcome OpenAIBody) (oB : CallOutcome GeminiBody)
    (oC : CallOutcome ClaudeBody) (rs : List ProviderResult)
    (mergeO : ChatOutcome) (p : String)
    (hperm : rs.Perm (dispatched env oA oB oC)) :
    ∃ tail, (genCmd (.ok p) rs mergeO).events = rs.map eventOf ++ tail ∧
      (rs.map eventOf).length = 3 ∧ ∀ e ∈ tail, notProviderEvent e := by
  refine ⟨(mergePhase (successes rs) mergeO).1, rfl, ?_,
    mergePhase_no_provider_events _ _⟩
  rw [List.length_map, hperm.length_eq]; rfl

/-- C8 witness: a concrete run (one success, two failures) drained in a
non-dispatch order has its three provider events first and only merge-phase
events afterwards. -/
theorem merge_strictly_after_full_drain_witness :
    ∃ tail, (genCmd (.ok "p")
        [(Vibe.claudeCall ⟨"k1", "k2", "k3"⟩ (.sendError "conn refused")).1,
         (Vibe.openAICall ⟨"k1", "k2", "k3"⟩
           (.httpResponse 200 "b" (.parsed ⟨[⟨[⟨"hello"⟩]⟩], none⟩))).1,
         (Vibe.geminiCall ⟨"k1", "k2", "k3"⟩
           (.httpResponse 500 "oops" (.unmarshalError "x"))).1]
        (.response ["merged"])).events =
      ([(Vibe.claudeCall ⟨"k1", "k2", "k3"⟩ (.sendError "conn refused")).1,
        (Vibe.openAICall ⟨"k1", "k2", "k3"⟩
          (.httpResponse 200 "b" (.parsed ⟨[⟨[⟨"hello"⟩]⟩], none⟩))).1,
        (Vibe.geminiCall ⟨"k1", "k2", "k3"⟩
          (.httpResponse 500 "oops" (.unmarshalError "x"))).1].map eventOf) ++ tail ∧
      (([(Vibe.claudeCall ⟨"k1", "k2", "k3"⟩ (.sendError "conn refused")).1,
         (Vibe.openAICall ⟨"k1", "k2", "k3"⟩
           (.httpResponse 200 "b" (.parsed ⟨[⟨[⟨"hello"⟩]⟩], none⟩))).1,
         (Vibe.geminiCall ⟨"k1", "k2", "k3"⟩
           (.httpResponse 500 "oops" (.unmarshalError "x"))).1] :
           List ProviderResult).map eventOf).length = 3 ∧
      ∀ e ∈ tail, notProviderEvent e :=
  merge_strictly_after_full_drain ⟨"k1", "k2", "k3"⟩
    (.httpResponse 200 "b" (.parsed ⟨[⟨[⟨"hello"⟩]⟩], none⟩))
    (.httpResponse 500 "oops" (.unmarshalError "x"))
    (.sendError "conn refused") _ (.response ["merged"]) "p" (by decide)

/-- C9: the merge step performs no local credential check: even with
`OPENAI_API_KEY` empty, as soon as at least one provider succeeded the merge
request is constructed and sent, and when that remote call fails the failure
is printed as a merge error while the command still returns nil. -/
theorem merge_has_no_credential_check
    (env : Env) (oA : CallOutcome OpenAIBody) (oB : CallOutcome GeminiBody)
    (oC : CallOutcome ClaudeBody) (rs : List ProviderResult)
    (mergeO : ChatOutcome) (p m : String)
    (_hkey : env.openaiKey = "")
    (_hperm : rs.Perm (dispatched env oA oB oC))
    (hne : successes rs ≠ []) :
    (genCmd (.ok p) rs mergeO).mergeRequest = some (mergePrompt (successes rs)) ∧
    (mergeO = .callError m →
      .mergeErr ("failed to merge responses: " ++ m) ∈ (genCmd (.ok p) rs mergeO).events ∧
      (genCmd (.ok p) rs mergeO).fatal = none) := by
  have hne' : rs.filterMap successOf ≠ [] := hne
  constructor
  · simp only [genCmd, mergePhase, successes, List.isEmpty_iff, if_neg hne']
  · rintro rfl
    refine ⟨?_, rfl⟩
    simp only [genCmd, mergePhase, successes, List.isEmpty_iff, if_neg hne',
      mergeResponses]
    exact List.mem_append_right _ (by simp)

/-- C9 witness: with `OPENAI_API_KEY` empty but Gemini succeeding, the merge
request is sent and its remote failure is reported while the command
returns nil. -/
theorem merge_has_no_credential_check_witness :
    (genCmd (.ok "p")
        (dispatched ⟨"", "k2", "k3"⟩ (.sendError "a")
          (.httpResponse 200 "b" (.parsed ⟨[⟨"hi"⟩], none⟩)) (.sendError "c"))
        (.callError "401 unauthorized")).mergeRequest =
      some (mergePrompt (successes
        (dispatched ⟨"", "k2", "k3"⟩ (.sendError "a")
          (.httpResponse 200 "b" (.parsed ⟨[⟨"hi"⟩], none⟩)) (.sendError "c")))) ∧
    (OutEvent.mergeErr ("failed to merge responses: " ++ "401 unauthorized") ∈
      (genCmd (.ok "p")
        (dispatched ⟨"", "k2", "k3"⟩ (.sendError "a")
          (.httpResponse 200 "b" (.parsed ⟨[⟨"hi"⟩], none⟩)) (.sendError "c"))
        (.callError "401 unauthorized")).events ∧
      (genCmd (.ok "p")
        (dispatched ⟨"", "k2", "k3"⟩ (.sendError "a")
          (.httpResponse 200 "b" (.parsed ⟨[⟨"hi"⟩], none⟩)) (.sendError "c"))
        (.callError "401 unauthorized")).fatal = none) := by
  have h := merge_has_no_credential_check ⟨"", "k2", "k3"⟩ (.sendError "a")
    (.httpResponse 200 "b" (.parsed ⟨[⟨"hi"⟩], none⟩)) (.sendError "c")
    (dispatched ⟨"", "k2", "k3"⟩ (.sendError "a")
      (.httpResponse 200 "b" (.parsed ⟨[⟨"hi"⟩], none⟩)) (.sendError "c"))
    (.callError "401 unauthorized") "p" "401 unauthorized" rfl (List.Perm.refl _)
    (by decide)
  exact ⟨h.1, h.2 rfl⟩

end Vibe
